import Mathlib

/-!
Shallow embedding of the obs-teslamate server (`src/main.go`), a Go program
that ingests TeslaMate MQTT telemetry into a shared `Location` record and
serves it over HTTP.  Machine floats (`float64`) are modelled as `ℚ`,
`time.Time` as an integer number of seconds, and the stdlib decoders
(`strconv.ParseFloat`, `encoding/json`) as explicit parsing functions or
`Option`-valued decode results, as noted at each definition.
-/

/-- Embeds the anonymous `Location` struct nested in Go's `ActiveRoute`
(`main.go` lines 27-30): the destination coordinates of the route payload. -/
structure RouteLocation where
  latitude : ℚ
  longitude : ℚ
  deriving DecidableEq, Repr

/-- Embeds Go's `ActiveRoute` (`main.go` lines 21-32), the JSON shape of an
`active_route` MQTT payload. -/
structure ActiveRoute where
  destination : String
  energyAtArrival : ℤ
  milesToArrival : ℚ
  minutesToArrival : ℚ
  trafficDelay : ℚ
  location : RouteLocation
  error : String
  deriving DecidableEq, Repr

/-- Embeds Go's `Location` (`main.go` lines 34-50), the telemetry snapshot.
`time.Time` is modelled as `ℤ` seconds. -/
structure Location where
  latitude : ℚ
  longitude : ℚ
  speed : ℚ
  heading : ℚ
  battery : ℚ
  range : ℚ
  state : String
  elevation : ℚ
  destination : String
  destinationLatitude : ℚ
  destinationLongitude : ℚ
  minutesToArrival : ℚ
  milesToArrival : ℚ
  energyAtArrival : ℤ
  updatedAt : ℤ
  deriving DecidableEq, Repr

/-- Embeds Go's `Config` (`main.go` lines 59-65), the runtime configuration
record. -/
structure Config where
  showRoute : Bool
  mapboxToken : String
  mapEnabled : Bool
  overlayEnabled : Bool
  timeZoneDBToken : String
  deriving DecidableEq, Repr

/-- Embeds Go's `WeatherData` (`main.go` lines 52-57). -/
structure WeatherData where
  temperature : ℚ
  description : String
  humidity : ℤ
  windSpeed : ℚ
  deriving DecidableEq, Repr

/-! ### Float parsing (models `strconv.ParseFloat`)

`messageHandler` parses every numeric-topic payload with
`strconv.ParseFloat(payload, 64)`.  We model the decimal grammar of that
stdlib function (optional sign, digits with optional fraction, optional
decimal exponent); the special forms the telemetry feed never uses
(hexadecimal floats, `Inf`, `NaN`) are outside the model and are rejected,
and the float value is kept exact as a rational. -/

/-- Consumes leading decimal digits, returning the accumulated value, the
number of digits consumed, and the rest of the input. -/
def takeDigits (acc n : ℕ) : List Char → ℕ × ℕ × List Char
  | [] => (acc, n, [])
  | c :: t =>
      if c.isDigit then takeDigits (acc * 10 + (c.toNat - 48)) (n + 1) t
      else (acc, n, c :: t)

/-- Parses an optional exponent suffix (after the mantissa): empty input
means exponent 0, otherwise the whole rest must be a well-formed exponent. -/
def parseExponent : List Char → Option ℤ
  | [] => some 0
  | c :: t =>
      if c = 'e' ∨ c = 'E' then
        let (sgn, t1) : ℤ × List Char :=
          match t with
          | '+' :: t2 => (1, t2)
          | '-' :: t2 => (-1, t2)
          | t2 => (1, t2)
        let (e, ne, t3) := takeDigits 0 0 t1
        if ne > 0 ∧ t3 = [] then some (sgn * e) else none
      else none

/-- Models `strconv.ParseFloat(s, 64)` from `messageHandler`'s numeric cases
(decimal forms), returning the parsed value exactly as a rational, or `none`
on a syntax error. -/
def parseFloat? (s : String) : Option ℚ :=
  let cs := s.toList
  if cs = [] then none
  else
    let (sgn, cs1) : ℚ × List Char :=
      match cs with
      | '+' :: t => (1, t)
      | '-' :: t => (-1, t)
      | t => (1, t)
    let (ip, ni, cs2) := takeDigits 0 0 cs1
    let (fp, nf, cs3) :=
      match cs2 with
      | '.' :: t => takeDigits 0 0 t
      | t => (0, 0, t)
    if ni + nf = 0 then none
    else
      match parseExponent cs3 with
      | some e => some (sgn * ((ip * 10 ^ nf + fp : ℚ) / 10 ^ nf) * (10 : ℚ) ^ e)
      | none => none

/-! ### Message Ingestion Dispatcher -/

/-- Embeds `messageHandler` (`main.go` lines 154-216): the per-message MQTT
dispatcher mutating `currentLocation` under `locationMutex`, written as a
pure state transition on `Location`.  `decodeRoute` models
`json.Unmarshal` of the payload into `ActiveRoute` (the stdlib JSON
decoder; `none` = decode error), and `now` models `time.Now()`. -/
def messageHandler (decodeRoute : String → Option ActiveRoute) (now : ℤ)
    (topic payload : String) (loc : Location) : Location :=
  if topic = "teslamate/cars/1/latitude" then
    match parseFloat? payload with
    | some lat => { loc with latitude := lat, updatedAt := now }
    | none => loc
  else if topic = "teslamate/cars/1/longitude" then
    match parseFloat? payload with
    | some lon => { loc with longitude := lon, updatedAt := now }
    | none => loc
  else if topic = "teslamate/cars/1/speed" then
    match parseFloat? payload with
    | some speed => { loc with speed := speed }
    | none => loc
  else if topic = "teslamate/cars/1/heading" then
    match parseFloat? payload with
    | some heading => { loc with heading := heading }
    | none => loc
  else if topic = "teslamate/cars/1/battery_level" then
    match parseFloat? payload with
    | some battery => { loc with battery := battery }
    | none => loc
  else if topic = "teslamate/cars/1/est_battery_range_km" then
    match parseFloat? payload with
    | some rng => { loc with range := rng }
    | none => loc
  else if topic = "teslamate/cars/1/state" then
    { loc with state := payload }
  else if topic = "teslamate/cars/1/elevation" then
    match parseFloat? payload with
    | some elevation => { loc with elevation := elevation }
    | none => loc
  else if topic = "teslamate/cars/1/active_route" then
    match decodeRoute payload with
    | some route =>
        if route.error = "" ∨ route.error = "null" then
          { loc with
              destination := route.destination
              destinationLatitude := route.location.latitude
              destinationLongitude := route.location.longitude
              minutesToArrival := route.minutesToArrival
              milesToArrival := route.milesToArrival
              energyAtArrival := route.energyAtArrival }
        else
          { loc with
              destination := ""
              destinationLatitude := 0
              destinationLongitude := 0
              minutesToArrival := 0
              milesToArrival := 0
              energyAtArrival := 0 }
    | none => loc
  else loc

/-! ### Great-circle distance (`calculateDistance` and its math helpers)

`main.go` lines 768-806.  Go computes in `float64`; the embedding computes
the same expressions exactly in `ℚ` (every constant in the source is a
decimal literal, hence rational).  Go's `int(x)` float-to-int conversion
truncates toward zero, modelled by `ratTrunc`. -/

/-- The literal `3.14159265359` used throughout `calculateDistance` and
`cosApprox`. -/
def goPi : ℚ := 3.14159265359

/-- Models Go's `int(q)` conversion on a float: truncation toward zero. -/
def ratTrunc (q : ℚ) : ℤ := if 0 ≤ q then ⌊q⌋ else ⌈q⌉

/-- The argument reduction performed at the top of `cosApprox`
(`main.go` lines 782-785): subtract the truncated multiple of `2π`, then
take the absolute value. -/
def cosReduce (x : ℚ) : ℚ :=
  |x - (ratTrunc (x / (2 * goPi)) : ℚ) * (2 * goPi)|

theorem goPi_pos : 0 < goPi := by norm_num [goPi]

theorem sub_ratTrunc_abs_lt_one (q : ℚ) : |q - (ratTrunc q : ℚ)| < 1 := by
  unfold ratTrunc
  split
  · rw [abs_of_nonneg (sub_nonneg.mpr (Int.floor_le q))]
    have := Int.lt_floor_add_one q
    push_cast at this ⊢
    linarith
  · rw [abs_of_nonpos (sub_nonpos.mpr (Int.le_ceil q))]
    have := Int.ceil_lt_add_one q
    push_cast at this ⊢
    linarith

theorem cosReduce_nonneg (x : ℚ) : 0 ≤ cosReduce x := abs_nonneg _

theorem cosReduce_lt (x : ℚ) : cosReduce x < 2 * goPi := by
  unfold cosReduce
  have h2 : (0 : ℚ) < 2 * goPi := by norm_num [goPi]
  have key : x - (ratTrunc (x / (2 * goPi)) : ℚ) * (2 * goPi)
      = (x / (2 * goPi) - (ratTrunc (x / (2 * goPi)) : ℚ)) * (2 * goPi) := by
    field_simp
    ring
  rw [key, abs_mul, abs_of_pos h2]
  calc |x / (2 * goPi) - (ratTrunc (x / (2 * goPi)) : ℚ)| * (2 * goPi)
      < 1 * (2 * goPi) :=
        mul_lt_mul_of_pos_right (sub_ratTrunc_abs_lt_one _) h2
    _ = 2 * goPi := one_mul _

theorem ratTrunc_neg (q : ℚ) : ratTrunc (-q) = -ratTrunc q := by
  unfold ratTrunc
  rcases lt_trichotomy q 0 with h | h | h
  · rw [if_pos (by linarith : (0 : ℚ) ≤ -q),
      if_neg (by linarith : ¬ (0 : ℚ) ≤ q), Int.floor_neg]
  · simp [h]
  · rw [if_neg (by linarith : ¬ (0 : ℚ) ≤ -q), if_pos h.le, Int.ceil_neg]

theorem cosReduce_neg (x : ℚ) : cosReduce (-x) = cosReduce x := by
  unfold cosReduce
  rw [show -x / (2 * goPi) = -(x / (2 * goPi)) by ring, ratTrunc_neg]
  push_cast
  rw [show -x - -(ratTrunc (x / (2 * goPi)) : ℚ) * (2 * goPi)
      = -(x - (ratTrunc (x / (2 * goPi)) : ℚ) * (2 * goPi)) by ring, abs_neg]

theorem cosReduce_of_nonneg_lt (x : ℚ) (h0 : 0 ≤ x) (h1 : x < 2 * goPi) :
    cosReduce x = x := by
  unfold cosReduce ratTrunc
  have h2 : (0 : ℚ) < 2 * goPi := by norm_num [goPi]
  have hq0 : 0 ≤ x / (2 * goPi) := div_nonneg h0 h2.le
  have hq1 : x / (2 * goPi) < 1 := (div_lt_one h2).mpr h1
  rw [if_pos hq0, Int.floor_eq_zero_iff.mpr (Set.mem_Ico.mpr ⟨hq0, hq1⟩)]
  simpa using abs_of_nonneg h0

/-- Embeds `cosApprox` (`main.go` lines 780-791): range-reduce the argument,
then either recurse shifted by `π` (negating) or evaluate the degree-4
Taylor polynomial `1 - x²/2 + x⁴/24`. -/
def cosApprox (x : ℚ) : ℚ :=
  if goPi < cosReduce x then
    -cosApprox (cosReduce x - goPi)
  else
    1 - cosReduce x * cosReduce x / 2
      + cosReduce x * cosReduce x * (cosReduce x * cosReduce x) / 24
termination_by ((if goPi < cosReduce x then 1 else 0 : ℕ))
decreasing_by
  rename_i h
  have hred : cosReduce (cosReduce x - goPi) = cosReduce x - goPi :=
    cosReduce_of_nonneg_lt _ (by linarith [goPi_pos])
      (by linarith [cosReduce_lt x, goPi_pos])
  rw [hred, if_neg (by linarith [cosReduce_lt x]), if_pos h]
  norm_num

set_option maxHeartbeats 4000000 in
theorem cosApprox_def (x : ℚ) : cosApprox x =
    if goPi < cosReduce x then
      -cosApprox (cosReduce x - goPi)
    else
      1 - cosReduce x * cosReduce x / 2
        + cosReduce x * cosReduce x * (cosReduce x * cosReduce x) / 24 :=
  cosApprox.eq_def x

theorem cosApprox_neg (x : ℚ) : cosApprox (-x) = cosApprox x := by
  rw [cosApprox_def (-x), cosApprox_def x, cosReduce_neg]

theorem cosApprox_zero : cosApprox 0 = 1 := by
  rw [cosApprox_def, cosReduce_of_nonneg_lt 0 le_rfl (by norm_num [goPi])]
  rw [if_neg (by norm_num [goPi])]
  norm_num

/-- Embeds `asinApprox` (`main.go` lines 793-795). -/
def asinApprox (x : ℚ) : ℚ := x + x * x * x / 6 + 3 * x * x * x * x * x / 40

/-- The Newton iteration loop inside `sqrtApprox` (`main.go` lines 801-804),
by remaining iteration count. -/
def sqrtIter (x : ℚ) : ℕ → ℚ → ℚ
  | 0, z => z
  | n + 1, z => sqrtIter x n ((z + x / z) / 2)

/-- Embeds `sqrtApprox` (`main.go` lines 797-806): `0` maps to `0`,
otherwise ten Newton iterations seeded with the argument itself. -/
def sqrtApprox (x : ℚ) : ℚ := if x = 0 then 0 else sqrtIter x 10 x

/-- Embeds `calculateDistance` (`main.go` lines 768-778): the
spherical-law-of-cosines style distance built from the approximations
above, with Earth radius `R = 6371` km. -/
def calculateDistance (lat1 lon1 lat2 lon2 : ℚ) : ℚ :=
  let dLat := (lat2 - lat1) * goPi / 180
  let dLon := (lon2 - lon1) * goPi / 180
  let a := 0.5 - 0.5 * cosApprox dLat
    + cosApprox (lat1 * goPi / 180) * cosApprox (lat2 * goPi / 180)
      * (1 - cosApprox dLon) / 2
  6371 * 2 * asinApprox (sqrtApprox a)

/-! ### Weather adapter (`getWeather`, `weatherCodeToDescription`)

`main.go` lines 679-766.  The network fetch, body read and JSON parse are
stdlib/third-party effects; their outcome is modelled by `WeatherFetch`.
A parsed body is a JSON object; the only key `getWeather` reads is
`current`, itself an object whose four numeric keys are modelled as
`Option ℚ` (`none` = key absent or not a JSON number, exactly the cases
where Go's type assertion fails and the zero default is kept). -/

/-- The four numeric fields `getWeather` reads from the provider's
`current` object. -/
structure CurrentConditions where
  temperature_2m : Option ℚ
  relative_humidity_2m : Option ℚ
  wind_speed_10m : Option ℚ
  weather_code : Option ℚ
  deriving DecidableEq, Repr

/-- Outcome of the weather HTTP round-trip in `getWeather`: request error
(`main.go` line 683), body-read error (line 690), JSON parse error
(line 696), or a parsed object whose `current` member is an object
(`some`) or absent/mistyped (`none`, line 700). -/
inductive WeatherFetch where
  | netErr
  | bodyErr
  | jsonErr
  | ok (current : Option CurrentConditions)
  deriving DecidableEq, Repr

/-- The WMO code table from `weatherCodeToDescription`
(`main.go` lines 735-760). -/
def weatherDescriptions : List (ℤ × String) :=
  [(0, "Clear sky"), (1, "Mainly clear"), (2, "Partly cloudy"), (3, "Overcast"),
   (45, "Foggy"), (48, "Depositing rime fog"),
   (51, "Light drizzle"), (53, "Moderate drizzle"), (55, "Dense drizzle"),
   (61, "Slight rain"), (63, "Moderate rain"), (65, "Heavy rain"),
   (71, "Slight snow"), (73, "Moderate snow"), (75, "Heavy snow"),
   (77, "Snow grains"),
   (80, "Slight rain showers"), (81, "Moderate rain showers"),
   (82, "Violent rain showers"),
   (85, "Slight snow showers"), (86, "Heavy snow showers"),
   (95, "Thunderstorm"), (96, "Thunderstorm with slight hail"),
   (99, "Thunderstorm with heavy hail")]

/-- Embeds `weatherCodeToDescription` (`main.go` lines 733-766): table
lookup with default `"Unknown"`. -/
def weatherCodeToDescription (code : ℤ) : String :=
  (weatherDescriptions.lookup code).getD "Unknown"

/-- Embeds `getWeather` (`main.go` lines 679-731).  Every failure path
returns `WeatherData{Description: "Unavailable"}` (other fields Go
zero values); on success each numeric field defaults to zero when absent,
and Go's `int(...)` conversions are `ratTrunc`. -/
def getWeather (fetch : WeatherFetch) : WeatherData :=
  match fetch with
  | .netErr => { temperature := 0, description := "Unavailable", humidity := 0, windSpeed := 0 }
  | .bodyErr => { temperature := 0, description := "Unavailable", humidity := 0, windSpeed := 0 }
  | .jsonErr => { temperature := 0, description := "Unavailable", humidity := 0, windSpeed := 0 }
  | .ok none => { temperature := 0, description := "Unavailable", humidity := 0, windSpeed := 0 }
  | .ok (some current) =>
      { temperature := current.temperature_2m.getD 0
        description := weatherCodeToDescription (ratTrunc (current.weather_code.getD 0))
        humidity := ratTrunc (current.relative_humidity_2m.getD 0)
        windSpeed := current.wind_speed_10m.getD 0 }

/-! ### Place-name adapter (`getLocationName`)

`main.go` lines 614-677.  The reverse-geocoding round-trip outcome is
`GeoFetch`; the structured `address` object's six string keys are
`Option String` (`none` = absent or not a JSON string). -/

/-- Models `fmt.Sprintf` with verb `%.4f`: fixed four decimal places
(rounding to nearest; Go rounds ties to even, a difference only on exact
half-ulp values which no claim exercises). -/
def fmt4 (q : ℚ) : String :=
  let n : ℤ := round (|q| * 10000)
  let ipart := n / 10000
  let fpart := (n % 10000).toNat
  let fs := toString fpart
  let padding := String.mk (List.replicate (4 - fs.length) '0')
  (if q < 0 then "-" else "") ++ toString ipart ++ "." ++ padding ++ fs

/-- The coordinate fallback string of `getLocationName`
(lines 621, 627, 632, 676): printf format string `%.4f°, %.4f°`. -/
def coordString (lat lon : ℚ) : String :=
  fmt4 lat ++ "°, " ++ fmt4 lon ++ "°"

/-- The six string keys `getLocationName` reads from the provider's
`address` object. -/
structure Address where
  suburb : Option String
  neighbourhood : Option String
  city : Option String
  town : Option String
  village : Option String
  state : Option String
  deriving DecidableEq, Repr

/-- Outcome of the geocoding round-trip in `getLocationName`: request
error (line 618), body-read error (line 625), JSON parse error (line 631),
or a parsed body with its optional `address` object and optional
`display_name` string. -/
inductive GeoFetch where
  | netErr
  | bodyErr
  | jsonErr
  | ok (address : Option Address) (displayName : Option String)
  deriving DecidableEq, Repr

/-- Go's `value, ok := m[k].(string); ok && value != ""` pattern used for
every address component. -/
def present (o : Option String) : Bool :=
  match o with
  | some s => s != ""
  | none => false

/-- The `locationParts` accumulation of `getLocationName`
(`main.go` lines 638-656): suburb else neighbourhood, then city else town
else village, then state. -/
def locationParts (a : Address) : List String :=
  (if present a.suburb then [a.suburb.getD ""]
   else if present a.neighbourhood then [a.neighbourhood.getD ""]
   else [])
  ++ (if present a.city then [a.city.getD ""]
      else if present a.town then [a.town.getD ""]
      else if present a.village then [a.village.getD ""]
      else [])
  ++ (if present a.state then [a.state.getD ""] else [])

/-- Embeds `getLocationName` (`main.go` lines 614-677): any fetch failure
falls back to the formatted coordinates; a usable `address` yields its
first part (or first and last joined by a comma); otherwise a non-empty
`display_name` yields its first comma-delimited segment trimmed; otherwise
the coordinates again. -/
def getLocationName (fetch : GeoFetch) (lat lon : ℚ) : String :=
  match fetch with
  | .netErr => coordString lat lon
  | .bodyErr => coordString lat lon
  | .jsonErr => coordString lat lon
  | .ok address displayName =>
      let fromAddress : Option String :=
        match address with
        | some a =>
            let parts := locationParts a
            if parts.length > 0 then
              if parts.length = 1 then some (parts.headD "")
              else some (parts.headD "" ++ ", " ++ parts.getLastD "")
            else none
        | none => none
      match fromAddress with
      | some s => s
      | none =>
          match displayName with
          | some d =>
              if d != "" then
                let parts := d.splitOn ","
                if parts.length > 0 then (parts.headD "").trim
                else coordString lat lon
              else coordString lat lon
          | none => coordString lat lon

/-! ### Access Gate and HTTP surface

`main.go` lines 238-533.  A gorilla cookie session's `Values` map holds
dynamically-typed entries; the three keys this program uses are modelled
as `Option SessVal` fields.  `time.Time` values are `ℤ` seconds, and the
`24 * time.Hour` expiry window is `24 * 3600` seconds. -/

/-- A dynamically-typed session value, as stored in gorilla's
`session.Values` map: the program stores booleans, strings, and (per the
type assertion in `requireAuth`) possibly `time.Time` values. -/
inductive SessVal where
  | b (v : Bool)
  | s (v : String)
  | t (v : ℤ)
  deriving DecidableEq, Repr

/-- The `admin-session` cookie contents: the three `Values` keys the
program reads or writes (`authenticated`, `username`, `login_time`);
`none` models an absent key. -/
structure Session where
  authenticated : Option SessVal
  username : Option SessVal
  loginTime : Option SessVal
  deriving DecidableEq, Repr

/-- Embeds `requireAuth` (`main.go` lines 387-412) as the access decision:
`true` = request proceeds, `false` = redirect to `/admin/login` was
emitted.  `none` for the session models a `sessionStore.Get` error.  Note
the expiry check only fires when `login_time` holds a `time.Time`
(`SessVal.t`); any other stored type skips it, exactly like Go's
two-valued type assertion. -/
def requireAuth (now : ℤ) (sess : Option Session) : Bool :=
  match sess with
  | none => false
  | some session =>
      match session.authenticated with
      | some (.b true) =>
          (match session.loginTime with
           | some (.t loginTime) =>
               if now - loginTime > 24 * 3600 then false else true
           | _ => true)
      | _ => false

/-- The session written by the successful-credentials branch of
`serveAdminLogin` (`main.go` lines 487-489): note `login_time` is stored
as `time.Now().String()` — a string, `SessVal.s`. -/
def loginSession (username nowString : String) : Session :=
  { authenticated := some (.b true)
    username := some (.s username)
    loginTime := some (.s nowString) }

/-- Response bodies distinguished only as far as the claims need; template
renderings are collapsed to `htmlPage`. -/
inductive Body where
  | htmlPage
  | errMsg (msg : String)
  | locJson (loc : Location)
  | configJson (cfg : Config)
  | overlayJson
  | timeJson
  | redirectTo (target : String)
  deriving DecidableEq, Repr

/-- An HTTP response: status code and body. -/
structure HResp where
  status : ℕ
  body : Body
  deriving DecidableEq, Repr

/-- Embeds `serveLocationJSON` (`main.go` lines 248-258): reads the live
`config.MapEnabled` on every call; 200 with the snapshot JSON when
enabled, 403 otherwise. -/
def serveLocationJSON (cfg : Config) (loc : Location) : HResp :=
  if cfg.mapEnabled then ⟨200, .locJson loc⟩
  else ⟨403, .errMsg "Map is disabled in configuration."⟩

/-- Embeds `serveConfig` (`main.go` lines 377-385): GET returns the
current config, every other method gets 405. -/
def serveConfig (method : String) (cfg : Config) : HResp :=
  if method = "GET" then ⟨200, .configJson cfg⟩
  else ⟨405, .errMsg "Method not allowed"⟩

/-- Embeds `serveAdminConfig` (`main.go` lines 439-457): gate first
(redirect when it fails), then POST with a decoded body (`none` = JSON
decode error, 400) replaces the whole config; other methods get 405.
Returns the (possibly replaced) config together with the response. -/
def serveAdminConfig (now : ℤ) (sess : Option Session) (method : String)
    (body : Option Config) (cfg : Config) : Config × HResp :=
  if requireAuth now sess then
    if method = "POST" then
      match body with
      | none => (cfg, ⟨400, .errMsg "Invalid JSON"⟩)
      | some newConfig => (newConfig, ⟨200, .configJson newConfig⟩)
    else (cfg, ⟨405, .errMsg "Method not allowed"⟩)
  else (cfg, ⟨302, .redirectTo "/admin/login"⟩)

/-- The ten routes registered in `main` (`main.go` lines 113-122). -/
inductive Endpoint where
  | root
  | location
  | localTime
  | overlay
  | overlayData
  | config
  | adminLogin
  | adminLogout
  | admin
  | adminConfig
  deriving DecidableEq, Repr

/-- An HTTP request as the handlers observe it: route, method, decoded
session cookie, current time, and (for `/admin/config`) the decoded JSON
body. -/
structure Request where
  endpoint : Endpoint
  method : String
  session : Option Session
  now : ℤ
  body : Option Config
  deriving DecidableEq, Repr

/-- The mutable server state the HTTP surface can reach: the `config`
global and the `currentLocation` global (sessions live in the client's
cookie, not in server state). -/
structure ServerState where
  config : Config
  location : Location
  deriving DecidableEq, Repr

/-- The HTTP dispatch of `main` (`main.go` lines 113-122) over the mutable
globals.  Template-rendering handlers (`serveRoot`, `serveOverlay`,
`serveAdmin`, `serveAdminLogin`, `serveAdminLogout`, `serveLocalTime`,
`serveOverlayData`) never assign to `config` or `currentLocation` in the
source; their responses are abbreviated, their state behaviour is exact.
Only `serveAdminConfig` (line 451) assigns to `config`. -/
def handleRequest (st : ServerState) (r : Request) : ServerState × HResp :=
  match r.endpoint with
  | .root => (st, ⟨200, .htmlPage⟩)
  | .location => (st, serveLocationJSON st.config st.location)
  | .localTime => (st, ⟨200, .timeJson⟩)
  | .overlay => (st, ⟨200, .htmlPage⟩)
  | .overlayData => (st, ⟨200, .overlayJson⟩)
  | .config => (st, serveConfig r.method st.config)
  | .adminLogin => (st, ⟨200, .htmlPage⟩)
  | .adminLogout => (st, ⟨302, .redirectTo "/admin/login"⟩)
  | .admin =>
      (st, if requireAuth r.now r.session then ⟨200, .htmlPage⟩
           else ⟨302, .redirectTo "/admin/login"⟩)
  | .adminConfig =>
      let res := serveAdminConfig r.now r.session r.method r.body st.config
      ({ st with config := res.1 }, res.2)


/-- The zero-valued telemetry state the process starts with (`currentLocation`
is a package-level zero-valued `Location`, `main.go` line 68). -/
def initialLocation : Location :=
  { latitude := 0, longitude := 0, speed := 0, heading := 0, battery := 0,
    range := 0, state := "", elevation := 0, destination := "",
    destinationLatitude := 0, destinationLongitude := 0, minutesToArrival := 0,
    milesToArrival := 0, energyAtArrival := 0, updatedAt := 0 }

/-- The boot-time configuration (`main.go` lines 71-77); the two
environment-sourced tokens are modelled as empty strings. -/
def initialConfig : Config :=
  { showRoute := true, mapboxToken := "", mapEnabled := true,
    overlayEnabled := true, timeZoneDBToken := "" }

/-- An association-list lookup misses every key not among the list's first
components. -/
theorem lookup_eq_none_of_not_mem {l : List (ℤ × String)} {k : ℤ}
    (h : k ∉ l.map Prod.fst) : l.lookup k = none := by
  induction l with
  | nil => rfl
  | cons p t ih =>
      rcases p with ⟨a, b⟩
      simp only [List.map_cons, List.mem_cons] at h
      push_neg at h
      simp [List.lookup, ih h.2, beq_eq_false_iff_ne.mpr h.1]

/-- Claim C10: `calculateDistance` is a total computation; it returns `0`
on identical coordinate pairs, and it is symmetric in its two coordinate
pairs — exactly so in the rational model, hence within any floating
tolerance. -/
theorem calculateDistance_zero_and_symmetric :
    (∀ lat lon : ℚ, calculateDistance lat lon lat lon = 0) ∧
    (∀ la1 lo1 la2 lo2 : ℚ,
      calculateDistance la1 lo1 la2 lo2 = calculateDistance la2 lo2 la1 lo1) := by
  constructor
  · intro lat lon
    simp only [calculateDistance]
    rw [show (lat - lat) * goPi / 180 = 0 by ring,
      show (lon - lon) * goPi / 180 = 0 by ring, cosApprox_zero]
    rw [show (0.5 : ℚ) - 0.5 * 1
        + cosApprox (lat * goPi / 180) * cosApprox (lat * goPi / 180) * (1 - 1) / 2
        = 0 by ring]
    rw [show sqrtApprox 0 = 0 by simp [sqrtApprox]]
    simp [asinApprox]
  · intro la1 lo1 la2 lo2
    simp only [calculateDistance]
    rw [show (la1 - la2) * goPi / 180 = -((la2 - la1) * goPi / 180) by ring,
      cosApprox_neg,
      show (lo1 - lo2) * goPi / 180 = -((lo2 - lo1) * goPi / 180) by ring,
      cosApprox_neg,
      show (0.5 : ℚ) - 0.5 * cosApprox ((la2 - la1) * goPi / 180)
          + cosApprox (la2 * goPi / 180) * cosApprox (la1 * goPi / 180)
            * (1 - cosApprox ((lo2 - lo1) * goPi / 180)) / 2
        = 0.5 - 0.5 * cosApprox ((la2 - la1) * goPi / 180)
          + cosApprox (la1 * goPi / 180) * cosApprox (la2 * goPi / 180)
            * (1 - cosApprox ((lo2 - lo1) * goPi / 180)) / 2 by ring]

/-- Claim C5 (code bug exhibit): a session created by the login handler
stores `login_time` as a string, so the `time.Time` assertion in
`requireAuth` never succeeds and the 24-hour expiry never fires — such a
session is accepted at EVERY `now`, including 25 hours (90000 s) after a
login at time 0.  Had `login_time` been stored as a `time.Time`
(`SessVal.t`), the same gate would reject it. -/
theorem login_session_never_expires :
    (∀ (u nowString : String) (now : ℤ),
      requireAuth now (some (loginSession u nowString)) = true) ∧
    requireAuth 90000 (some (loginSession "admin" "2026-10-12 00:00:00 +0000 UTC"))
      = true ∧
    requireAuth 90000
        (some { authenticated := some (.b true), username := some (.s "admin"),
                loginTime := some (.t 0) })
      = false :=
  ⟨fun _ _ _ => rfl, rfl, by decide⟩

/-- Claim C8: every failure path of the weather adapter (network error,
unreadable body, unparsable JSON, missing `current` object) yields
description "Unavailable" with all numeric fields zero; on success the
numeric weather code is mapped through the fixed table, and every code
outside the table maps to "Unknown". -/
theorem weather_fallback_and_code_table :
    getWeather .netErr = ⟨0, "Unavailable", 0, 0⟩ ∧
    getWeather .bodyErr = ⟨0, "Unavailable", 0, 0⟩ ∧
    getWeather .jsonErr = ⟨0, "Unavailable", 0, 0⟩ ∧
    getWeather (.ok none) = ⟨0, "Unavailable", 0, 0⟩ ∧
    (∀ c : CurrentConditions,
      getWeather (.ok (some c)) =
        ⟨c.temperature_2m.getD 0,
         weatherCodeToDescription (ratTrunc (c.weather_code.getD 0)),
         ratTrunc (c.relative_humidity_2m.getD 0),
         c.wind_speed_10m.getD 0⟩) ∧
    (∀ code : ℤ, code ∉ weatherDescriptions.map Prod.fst →
      weatherCodeToDescription code = "Unknown") ∧
    weatherCodeToDescription 95 = "Thunderstorm" := by
  refine ⟨rfl, rfl, rfl, rfl, fun c => rfl, ?_, by decide⟩
  intro code h
  unfold weatherCodeToDescription
  rw [lookup_eq_none_of_not_mem h]
  rfl

/-- Witness for C8: code 42 is not in the table and maps to "Unknown". -/
theorem weather_unknown_code_witness : weatherCodeToDescription 42 = "Unknown" :=
  weather_fallback_and_code_table.2.2.2.2.2.1 42 (by decide)

/-- Claim C1: for every `active_route` payload that decodes, an
empty-or-"null" error indicator replaces all six route-derived fields of
the snapshot from that single payload in one step, and any other error
indicator resets all six together; concretely, a `{error:"no_route"}`
message applied after a successful route zeroes every route field.  The
full-record equalities rule out any field-by-field merge across
messages. -/
theorem route_update_replaces_or_clears_atomically :
    (∀ (decodeRoute : String → Option ActiveRoute) (now : ℤ) (payload : String)
        (loc : Location) (route : ActiveRoute),
      decodeRoute payload = some route →
      ((route.error = "" ∨ route.error = "null") →
        messageHandler decodeRoute now "teslamate/cars/1/active_route" payload loc
          = { loc with
                destination := route.destination
                destinationLatitude := route.location.latitude
                destinationLongitude := route.location.longitude
                minutesToArrival := route.minutesToArrival
                milesToArrival := route.milesToArrival
                energyAtArrival := route.energyAtArrival }) ∧
      (route.error ≠ "" → route.error ≠ "null" →
        messageHandler decodeRoute now "teslamate/cars/1/active_route" payload loc
          = { loc with
                destination := ""
                destinationLatitude := 0
                destinationLongitude := 0
                minutesToArrival := 0
                milesToArrival := 0
                energyAtArrival := 0 })) ∧
    (∀ (d1 d2 : String → Option ActiveRoute) (n1 n2 : ℤ) (p1 p2 : String)
        (loc : Location) (r1 r2 : ActiveRoute),
      d1 p1 = some r1 → r1.error = "" →
      d2 p2 = some r2 → r2.error = "no_route" →
      (messageHandler d2 n2 "teslamate/cars/1/active_route" p2
          (messageHandler d1 n1 "teslamate/cars/1/active_route" p1 loc)).destination
        = "" ∧
      (messageHandler d2 n2 "teslamate/cars/1/active_route" p2
          (messageHandler d1 n1 "teslamate/cars/1/active_route" p1 loc)).destinationLatitude
        = 0 ∧
      (messageHandler d2 n2 "teslamate/cars/1/active_route" p2
          (messageHandler d1 n1 "teslamate/cars/1/active_route" p1 loc)).destinationLongitude
        = 0 ∧
      (messageHandler d2 n2 "teslamate/cars/1/active_route" p2
          (messageHandler d1 n1 "teslamate/cars/1/active_route" p1 loc)).minutesToArrival
        = 0 ∧
      (messageHandler d2 n2 "teslamate/cars/1/active_route" p2
          (messageHandler d1 n1 "teslamate/cars/1/active_route" p1 loc)).milesToArrival
        = 0 ∧
      (messageHandler d2 n2 "teslamate/cars/1/active_route" p2
          (messageHandler d1 n1 "teslamate/cars/1/active_route" p1 loc)).energyAtArrival
        = 0) := by
  constructor
  · intro d now payload loc route hdec
    constructor
    · intro herr
      rcases herr with h | h <;> simp [messageHandler, hdec, h]
    · intro h1 h2
      simp [messageHandler, hdec, h1, h2]
  · intro d1 d2 n1 n2 p1 p2 loc r1 r2 hd1 hr1 hd2 hr2
    simp [messageHandler, hd1, hr1, hd2, hr2]

/-- Witness for C1: a successful route followed by a decoded
`{error:"no_route"}` payload leaves every route-derived field zeroed. -/
theorem route_update_witness :
    (messageHandler
        (fun _ => some ⟨"", 0, 0, 0, 0, ⟨0, 0⟩, "no_route"⟩) 200 "teslamate/cars/1/active_route" "p2"
        (messageHandler
          (fun _ => some ⟨"Perth", 12, 30, 45, 2, ⟨-31.9, 115.8⟩, ""⟩) 100
          "teslamate/cars/1/active_route" "p1" initialLocation)).destination
      = "" :=
  (route_update_replaces_or_clears_atomically.2
    (fun _ => some ⟨"Perth", 12, 30, 45, 2, ⟨-31.9, 115.8⟩, ""⟩)
    (fun _ => some ⟨"", 0, 0, 0, 0, ⟨0, 0⟩, "no_route"⟩)
    100 200 "p1" "p2" initialLocation _ _ rfl rfl rfl rfl).1

/-- Claim C2: on any of the seven numeric-scalar topics, a payload that
does not parse as a float leaves the whole telemetry state exactly as it
was; the dispatcher is a total function, so the decode failure reaches no
caller. -/
theorem unparsable_numeric_payload_is_dropped :
    ∀ (decodeRoute : String → Option ActiveRoute) (now : ℤ)
      (topic payload : String) (loc : Location),
      topic ∈ ["teslamate/cars/1/latitude", "teslamate/cars/1/longitude",
        "teslamate/cars/1/speed", "teslamate/cars/1/heading",
        "teslamate/cars/1/battery_level", "teslamate/cars/1/est_battery_range_km",
        "teslamate/cars/1/elevation"] →
      parseFloat? payload = none →
      messageHandler decodeRoute now topic payload loc = loc := by
  intro d now topic payload loc ht hp
  simp only [List.mem_cons, List.mem_singleton, List.not_mem_nil, or_false] at ht
  rcases ht with rfl | rfl | rfl | rfl | rfl | rfl | rfl <;>
    simp [messageHandler, hp]

/-- Witness for C2: `"abc"` on the speed topic leaves the initial state
untouched. -/
theorem unparsable_numeric_payload_witness :
    messageHandler (fun _ => none) 100 "teslamate/cars/1/speed" "abc"
      initialLocation = initialLocation :=
  unparsable_numeric_payload_is_dropped (fun _ => none) 100
    "teslamate/cars/1/speed" "abc" initialLocation (by decide) (by decide)

/-- Claim C3 counterexample: a successful `speed` update (payload "5" at
time 100 over the zero-valued initial state) stores the new speed but does
NOT touch `updatedAt`, refuting the claim that every successful non-route
field update also updates the snapshot's timestamp. -/
theorem speed_update_leaves_timestamp_counterexample :
    (messageHandler (fun _ => none) 100 "teslamate/cars/1/speed" "5"
        initialLocation).speed = 5 ∧
    (messageHandler (fun _ => none) 100 "teslamate/cars/1/speed" "5"
        initialLocation).updatedAt = 0 := by
  have h5 : parseFloat? "5" = some 5 := by
    simp [parseFloat?, takeDigits, parseExponent]
  constructor <;> simp [messageHandler, h5, initialLocation]

/-- Claim C3 as amended: only successful `latitude` and `longitude` updates
set the snapshot timestamp to the update time; `speed`, `heading`,
`battery_level`, `est_battery_range_km`, `state`, `elevation` and
`active_route` messages never change `updatedAt`. -/
theorem timestamp_bumped_only_by_position_updates :
    (∀ (d : String → Option ActiveRoute) (now : ℤ) (payload : String)
        (loc : Location) (v : ℚ),
      parseFloat? payload = some v →
      (messageHandler d now "teslamate/cars/1/latitude" payload loc).updatedAt = now ∧
      (messageHandler d now "teslamate/cars/1/longitude" payload loc).updatedAt = now) ∧
    (∀ (d : String → Option ActiveRoute) (now : ℤ) (payload : String)
        (loc : Location),
      (messageHandler d now "teslamate/cars/1/speed" payload loc).updatedAt
        = loc.updatedAt ∧
      (messageHandler d now "teslamate/cars/1/heading" payload loc).updatedAt
        = loc.updatedAt ∧
      (messageHandler d now "teslamate/cars/1/battery_level" payload loc).updatedAt
        = loc.updatedAt ∧
      (messageHandler d now "teslamate/cars/1/est_battery_range_km" payload loc).updatedAt
        = loc.updatedAt ∧
      (messageHandler d now "teslamate/cars/1/state" payload loc).updatedAt
        = loc.updatedAt ∧
      (messageHandler d now "teslamate/cars/1/elevation" payload loc).updatedAt
        = loc.updatedAt ∧
      (messageHandler d now "teslamate/cars/1/active_route" payload loc).updatedAt
        = loc.updatedAt) := by
  constructor
  · intro d now payload loc v hv
    constructor <;> simp [messageHandler, hv]
  · intro d now payload loc
    refine ⟨?_, ?_, ?_, ?_, ?_, ?_, ?_⟩
    · rcases h : parseFloat? payload with _ | v <;> simp [messageHandler, h]
    · rcases h : parseFloat? payload with _ | v <;> simp [messageHandler, h]
    · rcases h : parseFloat? payload with _ | v <;> simp [messageHandler, h]
    · rcases h : parseFloat? payload with _ | v <;> simp [messageHandler, h]
    · simp [messageHandler]
    · rcases h : parseFloat? payload with _ | v <;> simp [messageHandler, h]
    · rcases h : d payload with _ | r
      · simp [messageHandler, h]
      · simp [messageHandler, h, apply_ite Location.updatedAt]

/-- Witness for C3 (amended): a parsed latitude payload stamps the update
time. -/
theorem timestamp_bumped_witness :
    (messageHandler (fun _ => none) 100 "teslamate/cars/1/latitude" "5"
        initialLocation).updatedAt = 100 :=
  (timestamp_bumped_only_by_position_updates.1 (fun _ => none) 100 "5"
    initialLocation 5 (by simp [parseFloat?, takeDigits, parseExponent])).1

/-- Claim C4: `/location` answers 403 whenever the live config's
map-enabled flag is false and 200 with the snapshot JSON whenever it is
true; because the handler reads the config global on every call, a config
replacement through `/admin/config` is observed by the very next
`/location` request. -/
theorem location_endpoint_follows_live_map_flag :
    (∀ (st : ServerState) (r : Request), r.endpoint = .location →
      st.config.mapEnabled = true →
      handleRequest st r = (st, ⟨200, .locJson st.location⟩)) ∧
    (∀ (st : ServerState) (r : Request), r.endpoint = .location →
      st.config.mapEnabled = false →
      handleRequest st r
        = (st, ⟨403, .errMsg "Map is disabled in configuration."⟩)) ∧
    (∀ (st : ServerState) (r rNext : Request) (newConfig : Config),
      r.endpoint = .adminConfig → r.method = "POST" →
      requireAuth r.now r.session = true → r.body = some newConfig →
      rNext.endpoint = .location →
      (handleRequest st r).1.config = newConfig ∧
      handleRequest (handleRequest st r).1 rNext
        = ((handleRequest st r).1,
            if newConfig.mapEnabled then ⟨200, .locJson st.location⟩
            else ⟨403, .errMsg "Map is disabled in configuration."⟩)) := by
  refine ⟨?_, ?_, ?_⟩
  · intro st r he hm
    simp [handleRequest, he, serveLocationJSON, hm]
  · intro st r he hm
    simp [handleRequest, he, serveLocationJSON, hm]
  · intro st r rNext newConfig he hm hauth hbody hne
    constructor
    · simp [handleRequest, he, serveAdminConfig, hm, hauth, hbody]
    · simp [handleRequest, he, hne, serveAdminConfig, hm, hauth, hbody,
        serveLocationJSON]

/-- Witness for C4: with the boot config (map enabled) a `/location`
request returns 200 with the snapshot. -/
theorem location_endpoint_witness :
    handleRequest ⟨initialConfig, initialLocation⟩
        ⟨.location, "GET", none, 0, none⟩
      = (⟨initialConfig, initialLocation⟩, ⟨200, .locJson initialLocation⟩) :=
  location_endpoint_follows_live_map_flag.1 _ _ rfl rfl

/-- Claim C6: the configuration changes only through an authenticated POST
to `/admin/config`; a failed gate on that route redirects and leaves state
untouched, and a non-GET request to the public `/config` route is answered
405 with state untouched. -/
theorem config_replace_requires_authenticated_post :
    (∀ (st : ServerState) (r : Request),
      (handleRequest st r).1.config ≠ st.config →
      r.endpoint = .adminConfig ∧ r.method = "POST" ∧
        requireAuth r.now r.session = true) ∧
    (∀ (st : ServerState) (r : Request), r.endpoint = .adminConfig →
      requireAuth r.now r.session = false →
      handleRequest st r = (st, ⟨302, .redirectTo "/admin/login"⟩)) ∧
    (∀ (st : ServerState) (r : Request), r.endpoint = .config →
      r.method ≠ "GET" →
      handleRequest st r = (st, ⟨405, .errMsg "Method not allowed"⟩)) := by
  refine ⟨?_, ?_, ?_⟩
  · intro st r hne
    rcases r with ⟨ep, m, sess, now, body⟩
    cases ep
    case adminConfig =>
      by_cases hauth : requireAuth now sess
      · by_cases hm : m = "POST"
        · exact ⟨rfl, hm, hauth⟩
        · exfalso
          apply hne
          simp [handleRequest, serveAdminConfig, hauth, hm]
      · exfalso
        apply hne
        simp [handleRequest, serveAdminConfig, hauth]
    all_goals
      exfalso
      apply hne
      simp [handleRequest]
  · intro st r he hauth
    rcases r with ⟨ep, m, sess, now, body⟩
    obtain rfl : ep = .adminConfig := he
    simp [handleRequest, serveAdminConfig, hauth]
  · intro st r he hm
    rcases r with ⟨ep, m, sess, now, body⟩
    obtain rfl : ep = .config := he
    simp [handleRequest, serveConfig, hm]

/-- Witness for C6: an unauthenticated POST to `/admin/config` carrying a
decoded body is redirected and the configuration is unchanged. -/
theorem config_replace_witness :
    handleRequest ⟨initialConfig, initialLocation⟩
        ⟨.adminConfig, "POST", none, 0, some initialConfig⟩
      = (⟨initialConfig, initialLocation⟩, ⟨302, .redirectTo "/admin/login"⟩) :=
  config_replace_requires_authenticated_post.2.1 _ _ rfl rfl

/-- Claim C9: every geocoding failure yields the formatted coordinate
string; a structured address that contributes parts wins (first part
alone, or first and last joined), an address with no usable parts falls
through to the display name, whose first comma-delimited segment is
trimmed when the display name is non-empty, and the coordinates are the
final fallback. -/
theorem location_name_fallback_chain :
    (∀ lat lon : ℚ, getLocationName .netErr lat lon = coordString lat lon) ∧
    (∀ lat lon : ℚ, getLocationName .bodyErr lat lon = coordString lat lon) ∧
    (∀ lat lon : ℚ, getLocationName .jsonErr lat lon = coordString lat lon) ∧
    (∀ (lat lon : ℚ) (a : Address) (dn : Option String),
      locationParts a ≠ [] →
      getLocationName (.ok (some a) dn) lat lon
        = (if (locationParts a).length = 1 then (locationParts a).headD ""
           else (locationParts a).headD "" ++ ", " ++ (locationParts a).getLastD "")) ∧
    (∀ (lat lon : ℚ) (a : Address) (dn : Option String),
      locationParts a = [] →
      getLocationName (.ok (some a) dn) lat lon
        = getLocationName (.ok none dn) lat lon) ∧
    (∀ (lat lon : ℚ) (dn first : String) (rest : List String),
      dn ≠ "" → dn.splitOn "," = first :: rest →
      getLocationName (.ok none (some dn)) lat lon = first.trim) ∧
    (∀ lat lon : ℚ,
      getLocationName (.ok none (some "")) lat lon = coordString lat lon) ∧
    (∀ lat lon : ℚ,
      getLocationName (.ok none none) lat lon = coordString lat lon) := by
  refine ⟨fun _ _ => rfl, fun _ _ => rfl, fun _ _ => rfl, ?_, ?_, ?_,
    fun _ _ => rfl, fun _ _ => rfl⟩
  · intro lat lon a dn h
    have hl : 0 < (locationParts a).length := List.length_pos.mpr h
    by_cases h1 : (locationParts a).length = 1 <;> simp [getLocationName, hl, h1]
  · intro lat lon a dn h
    simp [getLocationName, h]
  · intro lat lon dn first rest hne hsplit
    simp [getLocationName, hsplit, bne_iff_ne, hne]

/-- Witness for C9: a structured address carrying suburb, city and state
resolves to "suburb, state" (first and last collected parts). -/
theorem location_name_witness :
    getLocationName
        (.ok (some ⟨some "Baldivis", none, some "Rockingham", none, none,
          some "Western Australia"⟩) none) 0 0
      = "Baldivis, Western Australia" := by
  have h := location_name_fallback_chain.2.2.2.1 0 0
    ⟨some "Baldivis", none, some "Rockingham", none, none,
      some "Western Australia"⟩ none (by decide)
  rw [h]
  decide
